import Mathlib

/-!
Shallow embedding of `src/app.py` (a single-file Dash dashboard that
scrapes a ticker list and a price-history table from a finance website
and redraws a line chart on each input change).

The network is an oracle mapping a URL to the outcome of
`requests.get` followed by `pandas.read_html` on the body; every
operation returns its outcome together with the list of HTTP GETs it
issued, so that fetch counts and unhandled exceptions are visible.
The two pandas conversions applied cell-wise (`pd.to_numeric` with
coercion of invalid cells to NaN, and `pd.to_datetime`) are passed in
as oracle parameters `toNum` and `toDate`.
-/

/-- Equality of fallible outcomes is decidable. -/
instance exceptDecEq {ε α : Type} [DecidableEq ε] [DecidableEq α] :
    DecidableEq (Except ε α)
  | .error e, .error e' =>
    if h : e = e' then .isTrue (by rw [h]) else .isFalse (by simp [h])
  | .error _, .ok _ => .isFalse (by simp)
  | .ok _, .error _ => .isFalse (by simp)
  | .ok a, .ok a' =>
    if h : a = a' then .isTrue (by rw [h]) else .isFalse (by simp [h])

/-- Unhandled Python exceptions a run of the script can raise. -/
inductive PyError where
  | httpError       -- requests.get raised
  | noTables        -- pandas.read_html found no table in the page
  | columnMismatch  -- assigning 7 column names to a table of another width
  | valueError      -- datetime.strptime rejected a date string
  | keyError        -- the ticker table has no Symbol column
  deriving DecidableEq

/-- A raw table as produced by `pandas.read_html`: a header row of column
names and data rows of cell strings. -/
structure RawDF where
  header : List String
  rows : List (List String)
  deriving DecidableEq

/-- Outcome of one HTTP GET: failure, or the list of tables that
`pandas.read_html` extracts from the returned page. -/
inductive FetchResult where
  | fail
  | page (tables : List RawDF)
  deriving DecidableEq

/-- The network oracle: what fetching each URL yields. -/
abbrev Net := String → FetchResult

/-- One plotly trace (`go.Scatter`); x cells are parsed dates, y cells
are coerced numbers where `none` models NaN. -/
structure Trace where
  x : List Int
  y : List (Option Int)
  mode : String
  deriving DecidableEq

/-- The layout fields the script touches via `update_layout`. -/
structure Layout where
  title : Option String := none
  title_x : Option ℚ := none
  width : Option Nat := none
  height : Option Nat := none
  template : Option String := none
  deriving DecidableEq

/-- A plotly figure: a list of traces and a layout. -/
structure Figure where
  data : List Trace := []
  layout : Layout := {}
  deriving DecidableEq

/-- Embedding of `common_layout` (src/app.py lines 30-38): sets a centered
title, width 800, height 600 and the plotly_white template. -/
def common_layout (fig : Figure) : Figure :=
  { fig with layout := { fig.layout with
      title_x := some (1 / 2)
      width := some 800
      height := some 600
      template := some "plotly_white" } }

/-- Embedding of `empty_figure` (src/app.py lines 40-45): one empty line
trace, title "Loading Data...", then the common layout. -/
def empty_figure : Figure :=
  let fig : Figure := {}
  let fig := { fig with data := fig.data ++ [({ x := [], y := [], mode := "lines" } : Trace)] }
  let fig := { fig with layout := { fig.layout with title := some "Loading Data..." } }
  common_layout fig

/-- Python truthiness of an optional string callback input: `None` and the
empty string are falsy. -/
def pyFalsy : Option String → Bool
  | none => true
  | some s => s == ""

/-- Proleptic-Gregorian leap-year test, as in Python's datetime. -/
def isLeap (y : Nat) : Bool :=
  (y % 4 == 0 && y % 100 != 0) || y % 400 == 0

/-- Number of days in a month of a given year. -/
def daysInMonth (y m : Nat) : Nat :=
  if m == 2 then (if isLeap y then 29 else 28)
  else if m == 4 || m == 6 || m == 9 || m == 11 then 30
  else 31

/-- A calendar date, the result of a successful strptime. -/
structure YMD where
  year : Nat
  month : Nat
  day : Nat
  deriving DecidableEq

/-- Splits a character list at every hyphen, keeping empty fields, like
Python's str.split on a single separator. -/
def splitOnDash : List Char → List (List Char)
  | [] => [[]]
  | c :: cs =>
    let r := splitOnDash cs
    if c == '-' then [] :: r
    else
      match r with
      | [] => [[c]]
      | h :: t => (c :: h) :: t

/-- Reads a non-empty all-digit character list as a decimal number. -/
def charsToNat? (cs : List Char) : Option Nat :=
  if cs ≠ [] ∧ cs.all (fun c => c.isDigit) then
    some (cs.foldl (fun n c => 10 * n + (c.toNat - 48)) 0)
  else none

/-- Model of `datetime.strptime(s, "%Y-%m-%d")`: a four-digit year and a
one- or two-digit month and day separated by hyphens, validated against
the calendar; `none` models the ValueError Python raises on any other
input. -/
def strptimeYMD (s : String) : Option YMD :=
  match splitOnDash s.data with
  | [ys, ms, ds] =>
    match charsToNat? ys, charsToNat? ms, charsToNat? ds with
    | some y, some m, some d =>
      if ys.length = 4 ∧ (ms.length = 1 ∨ ms.length = 2)
          ∧ (ds.length = 1 ∨ ds.length = 2)
          ∧ 1 ≤ m ∧ m ≤ 12 ∧ 1 ≤ d ∧ d ≤ daysInMonth y m
      then some ⟨y, m, d⟩ else none
    | _, _, _ => none
  | _ => none

/-- Days since 1970-01-01 of a proleptic-Gregorian date. -/
def daysFromCivil (y0 m d : Nat) : Int :=
  let y : Int := if m ≤ 2 then (y0 : Int) - 1 else (y0 : Int)
  let era : Int := (if 0 ≤ y then y else y - 399) / 400
  let yoe : Int := y - era * 400
  let mp : Int := if 2 < m then (m : Int) - 3 else (m : Int) + 9
  let doy : Int := (153 * mp + 2) / 5 + (d : Int) - 1
  let doe : Int := yoe * 365 + yoe / 4 - yoe / 100 + doy
  era * 146097 + doe - 719468

/-- Model of `int(datetime.strptime(...).timestamp())`: seconds since the
Unix epoch at midnight of the given date. -/
def timestamp (t : YMD) : Int :=
  86400 * daysFromCivil t.year t.month t.day

/-- The seven column names assigned on line 103 of src/app.py. -/
def sevenColumns : List String :=
  ["Date", "Open", "High", "Low", "Close", "Adj Close", "Volume"]

/-- The processed price-history table: the seven column names, the parsed
Date column and the six numeric columns (a `none` cell models NaN). -/
structure ProcDF where
  columns : List String
  dateCol : List Int
  numCols : List (List (Option Int))
  deriving DecidableEq

/-- Embedding of lines 103-105 of `update_graph`: rename the columns
(pandas raises if the table width is not 7), coerce columns 1..6 cell-wise
with `pd.to_numeric` (invalid cells become NaN, modelled by `toNum`
returning `none`) and parse the Date column with `pd.to_datetime`
(modelled by `toDate`). -/
def processTable (toNum : String → Option Int) (toDate : String → Int)
    (t : RawDF) : Except PyError ProcDF :=
  if t.header.length = 7 then
    .ok { columns := sevenColumns
          dateCol := t.rows.map (fun r => toDate (r.getD 0 ""))
          numCols := (List.range 6).map (fun j =>
            t.rows.map (fun r => toNum (r.getD (j + 1) ""))) }
  else .error .columnMismatch

/-- The ticker-list URL fetched once at process start (line 23). -/
def url_stocks : String :=
  "https://finance.yahoo.com/markets/stocks/most-active/?start=0&count=100"

/-- The price-history URL built on line 100 from the symbol and the two
integer timestamps. -/
def url_history (symbol : String) (period1 period2 : Int) : String :=
  "https://finance.yahoo.com/quote/" ++ symbol ++ "/history/?period1="
    ++ toString period1 ++ "&period2=" ++ toString period2

/-- Embedding of line 24 of src/app.py: the ticker list computed at
process start.  Fetches the ticker page, takes the first table and its
Symbol column; any failure is an unhandled startup exception.  Returns
the outcome together with the HTTP GETs issued. -/
def fetch_stocks (net : Net) : Except PyError (List String) × List String :=
  match net url_stocks with
  | .fail => (.error .httpError, [url_stocks])
  | .page [] => (.error .noTables, [url_stocks])
  | .page (t :: _) =>
    let i := t.header.indexOf "Symbol"
    if i < t.header.length then
      (.ok (t.rows.map (fun r => r.getD i "")), [url_stocks])
    else (.error .keyError, [url_stocks])

/-- Embedding of `update_graph` (src/app.py lines 93-114).  Returns the
outcome — the figure, or the unhandled exception — together with the list
of HTTP GETs issued by this call, in order. -/
def update_graph (net : Net) (toNum : String → Option Int)
    (toDate : String → Int)
    (symbol start_date end_date : Option String) :
    Except PyError Figure × List String :=
  if pyFalsy symbol || pyFalsy start_date || pyFalsy end_date then
    (.ok empty_figure, [])
  else
    match strptimeYMD (start_date.getD "") with
    | none => (.error .valueError, [])
    | some d1 =>
      match strptimeYMD (end_date.getD "") with
      | none => (.error .valueError, [])
      | some d2 =>
        let period1 := timestamp d1
        let period2 := timestamp d2
        let url := url_history (symbol.getD "") period1 period2
        match net url with
        | .fail => (.error .httpError, [url])
        | .page [] => (.error .noTables, [url])
        | .page (t :: _) =>
          match processTable toNum toDate t with
          | .error e => (.error e, [url])
          | .ok p =>
            let fig : Figure :=
              { data := [{ x := p.dateCol, y := p.numCols.getD 4 [], mode := "lines" }] }
            let fig := { fig with layout := { fig.layout with
                title := some ("Stock Prices: " ++ symbol.getD "") } }
            let fig := { fig with layout := { fig.layout with
                title_x := some (1 / 2), width := some 600, height := some 400 } }
            (.ok (common_layout fig), [url])

/-- A demonstration seven-column price-history table with one row. -/
def demoTable : RawDF :=
  { header := sevenColumns
    rows := [["Jan 02, 2020", "74", "75", "73", "75", "74", "135480400"]] }

/-- A demonstration network: every URL yields the demonstration table. -/
def demoNet : Net := fun _ => .page [demoTable]

/-- A demonstration numeric coercion: decimal digit strings parse,
anything else becomes NaN. -/
def demoToNum (s : String) : Option Int :=
  (charsToNat? s.data).map (fun n => (n : Int))

/-- A demonstration date conversion. -/
def demoToDate (_ : String) : Int := 0

/-- A network on which every GET fails. -/
def failNet : Net := fun _ => .fail

/-- A network whose pages contain no parseable table. -/
def emptyNet : Net := fun _ => .page []

/-- A network returning a first table whose width is 6, not 7. -/
def badShapeNet : Net := fun _ =>
  .page [{ header := ["Date", "Open", "High", "Low", "Close", "Volume"]
           rows := [] }]

/-- The processed table the demonstration run builds. -/
def demoProc : ProcDF :=
  { columns := sevenColumns
    dateCol := [0]
    numCols := [[some 74], [some 75], [some 73], [some 75], [some 74],
      [some 135480400]] }

/-- The figure the demonstration run draws. -/
def demoFig : Figure :=
  { data := [{ x := [0], y := [some 74], mode := "lines" }]
    layout := { title := some "Stock Prices: AAPL"
                title_x := some (1 / 2)
                width := some 800
                height := some 600
                template := some "plotly_white" } }

/-- A non-empty string is truthy as a callback input. -/
theorem pyFalsy_some_eq_false (s : String) (h : s ≠ "") :
    pyFalsy (some s) = false := by
  simp only [pyFalsy, beq_eq_false_iff_ne, ne_eq]
  exact h

/-- A falsy callback input is exactly a present non-empty string. -/
theorem pyFalsy_false_elim (o : Option String) (h : pyFalsy o = false) :
    ∃ s, o = some s ∧ s ≠ "" := by
  cases o with
  | none => simp [pyFalsy] at h
  | some s =>
    refine ⟨s, rfl, ?_⟩
    simpa [pyFalsy] using h

/-- Reading inside the left part of an appended string. -/
theorem append_data_getElem (s t : String) (i : Nat) (h : i < s.data.length) :
    (s ++ t).data[i]? = s.data[i]? := by
  rw [String.data_append]
  exact List.getElem?_append_left h

/-- Appending only grows the character list. -/
theorem le_append_data_length (s t : String) :
    s.data.length ≤ (s ++ t).data.length := by
  rw [String.data_append, List.length_append]
  omega

/-- Character 26 of every price-history URL is the q of quote. -/
theorem url_history_getElem26 (sym : String) (p1 p2 : Int) :
    (url_history sym p1 p2).data[26]? = some 'q' := by
  unfold url_history
  have h0 : (26 : Nat) < ("https://finance.yahoo.com/quote/" : String).data.length := by
    decide
  have h1 : (26 : Nat) < ("https://finance.yahoo.com/quote/" ++ sym).data.length :=
    lt_of_lt_of_le h0 (le_append_data_length _ _)
  have h2 : (26 : Nat) <
      ("https://finance.yahoo.com/quote/" ++ sym ++ "/history/?period1=").data.length :=
    lt_of_lt_of_le h1 (le_append_data_length _ _)
  have h3 : (26 : Nat) <
      ("https://finance.yahoo.com/quote/" ++ sym ++ "/history/?period1="
        ++ toString p1).data.length :=
    lt_of_lt_of_le h2 (le_append_data_length _ _)
  have h4 : (26 : Nat) <
      ("https://finance.yahoo.com/quote/" ++ sym ++ "/history/?period1="
        ++ toString p1 ++ "&period2=").data.length :=
    lt_of_lt_of_le h3 (le_append_data_length _ _)
  rw [append_data_getElem _ _ _ h4, append_data_getElem _ _ _ h3,
    append_data_getElem _ _ _ h2, append_data_getElem _ _ _ h1,
    append_data_getElem _ _ _ h0]
  decide

/-- No price-history URL coincides with the ticker-list URL. -/
theorem url_history_ne_url_stocks (sym : String) (p1 p2 : Int) :
    url_history sym p1 p2 ≠ url_stocks := by
  intro h
  have h1 := url_history_getElem26 sym p1 p2
  rw [h] at h1
  have h2 : url_stocks.data[26]? = some 'm' := by decide
  rw [h2] at h1
  exact absurd h1 (by decide)

/-- Unfolding of update_graph on truthy inputs with dates that parse. -/
theorem update_graph_data_branch (net : Net) (toNum : String → Option Int)
    (toDate : String → Int) (s a b : String) (d1 d2 : YMD)
    (hs : s ≠ "") (ha : a ≠ "") (hb : b ≠ "")
    (h1 : strptimeYMD a = some d1) (h2 : strptimeYMD b = some d2) :
    update_graph net toNum toDate (some s) (some a) (some b) =
      (match net (url_history s (timestamp d1) (timestamp d2)) with
       | .fail => (.error .httpError, [url_history s (timestamp d1) (timestamp d2)])
       | .page [] => (.error .noTables, [url_history s (timestamp d1) (timestamp d2)])
       | .page (t :: _) =>
         match processTable toNum toDate t with
         | .error e => (.error e, [url_history s (timestamp d1) (timestamp d2)])
         | .ok p =>
           (.ok (common_layout
             { data := [{ x := p.dateCol, y := p.numCols.getD 4 [], mode := "lines" }]
               layout := { title := some ("Stock Prices: " ++ s)
                           title_x := some (1 / 2)
                           width := some 600
                           height := some 400
                           template := none } }),
            [url_history s (timestamp d1) (timestamp d2)])) := by
  unfold update_graph
  simp only [Option.getD_some]
  rw [pyFalsy_some_eq_false s hs, pyFalsy_some_eq_false a ha,
    pyFalsy_some_eq_false b hb, h1, h2]
  rfl

/-- With truthy inputs, a start date that strptime rejects raises an
unhandled ValueError before any request. -/
theorem update_graph_bad_start (net : Net) (toNum : String → Option Int)
    (toDate : String → Int) (s a b : String)
    (hs : s ≠ "") (ha : a ≠ "") (hb : b ≠ "")
    (h1 : strptimeYMD a = none) :
    update_graph net toNum toDate (some s) (some a) (some b)
      = (.error .valueError, []) := by
  unfold update_graph
  simp only [Option.getD_some]
  rw [pyFalsy_some_eq_false s hs, pyFalsy_some_eq_false a ha,
    pyFalsy_some_eq_false b hb, h1]
  rfl

/-- With truthy inputs and a parsing start date, an end date that strptime
rejects raises an unhandled ValueError before any request. -/
theorem update_graph_bad_end (net : Net) (toNum : String → Option Int)
    (toDate : String → Int) (s a b : String) (d1 : YMD)
    (hs : s ≠ "") (ha : a ≠ "") (hb : b ≠ "")
    (h1 : strptimeYMD a = some d1) (h2 : strptimeYMD b = none) :
    update_graph net toNum toDate (some s) (some a) (some b)
      = (.error .valueError, []) := by
  unfold update_graph
  simp only [Option.getD_some]
  rw [pyFalsy_some_eq_false s hs, pyFalsy_some_eq_false a ha,
    pyFalsy_some_eq_false b hb, h1, h2]
  rfl

/-- Every data-branch run issues exactly the one GET for the history URL,
whatever the network answers. -/
theorem update_graph_log (net : Net) (toNum : String → Option Int)
    (toDate : String → Int) (s a b : String) (d1 d2 : YMD)
    (hs : s ≠ "") (ha : a ≠ "") (hb : b ≠ "")
    (h1 : strptimeYMD a = some d1) (h2 : strptimeYMD b = some d2) :
    (update_graph net toNum toDate (some s) (some a) (some b)).2
      = [url_history s (timestamp d1) (timestamp d2)] := by
  rw [update_graph_data_branch net toNum toDate s a b d1 d2 hs ha hb h1 h2]
  cases hnet : net (url_history s (timestamp d1) (timestamp d2)) with
  | fail => rfl
  | page ts =>
    cases ts with
    | nil => rfl
    | cons t rest =>
      cases hp : processTable toNum toDate t <;> simp [hp]

/-- The startup ticker fetch issues exactly one GET, for the ticker page. -/
theorem fetch_stocks_log (net : Net) : (fetch_stocks net).2 = [url_stocks] := by
  unfold fetch_stocks
  cases net url_stocks with
  | fail => rfl
  | page ts =>
    cases ts with
    | nil => rfl
    | cons t rest =>
      by_cases hi : t.header.indexOf "Symbol" < t.header.length <;> simp [hi]

/-- No run of update_graph ever requests the ticker-list page. -/
theorem update_graph_no_ticker_get (net : Net) (toNum : String → Option Int)
    (toDate : String → Int) (symbol start_date end_date : Option String) :
    url_stocks ∉ (update_graph net toNum toDate symbol start_date end_date).2 := by
  by_cases hf : (pyFalsy symbol || pyFalsy start_date || pyFalsy end_date) = true
  · have hgo : update_graph net toNum toDate symbol start_date end_date
        = (.ok empty_figure, []) := by
      unfold update_graph
      rw [if_pos hf]
    rw [hgo]
    simp
  · simp only [Bool.or_eq_true, not_or, Bool.not_eq_true] at hf
    obtain ⟨⟨hfs, hfa⟩, hfb⟩ := hf
    obtain ⟨s, hsy, hs⟩ := pyFalsy_false_elim symbol hfs
    obtain ⟨a, hay, ha⟩ := pyFalsy_false_elim start_date hfa
    obtain ⟨b, hby, hb⟩ := pyFalsy_false_elim end_date hfb
    subst hsy
    subst hay
    subst hby
    cases h1 : strptimeYMD a with
    | none =>
      rw [update_graph_bad_start net toNum toDate s a b hs ha hb h1]
      simp
    | some d1 =>
      cases h2 : strptimeYMD b with
      | none =>
        rw [update_graph_bad_end net toNum toDate s a b d1 hs ha hb h1 h2]
        simp
      | some d2 =>
        rw [update_graph_log net toNum toDate s a b d1 d2 hs ha hb h1 h2]
        simp only [List.mem_singleton]
        exact fun hh => url_history_ne_url_stocks s (timestamp d1) (timestamp d2) hh.symm

/-- The common layout pins the four shared layout fields of any figure. -/
theorem common_layout_fields (g : Figure) :
    (common_layout g).layout.title_x = some (1 / 2) ∧
    (common_layout g).layout.width = some 800 ∧
    (common_layout g).layout.height = some 600 ∧
    (common_layout g).layout.template = some "plotly_white" :=
  ⟨rfl, rfl, rfl, rfl⟩

/-- C1: for every non-empty symbol and non-empty start and end date
strings, any figure update_graph returns is titled with the selected
symbol: its title is "Stock Prices: " followed by the symbol. -/
theorem update_graph_title_is_symbol (net : Net) (toNum : String → Option Int)
    (toDate : String → Int) (s a b : String)
    (hs : s ≠ "") (ha : a ≠ "") (hb : b ≠ "") (fig : Figure)
    (hok : (update_graph net toNum toDate (some s) (some a) (some b)).1 = .ok fig) :
    fig.layout.title = some ("Stock Prices: " ++ s) := by
  cases h1 : strptimeYMD a with
  | none =>
    rw [update_graph_bad_start net toNum toDate s a b hs ha hb h1] at hok
    exact absurd hok (by simp)
  | some d1 =>
    cases h2 : strptimeYMD b with
    | none =>
      rw [update_graph_bad_end net toNum toDate s a b d1 hs ha hb h1 h2] at hok
      exact absurd hok (by simp)
    | some d2 =>
      rw [update_graph_data_branch net toNum toDate s a b d1 d2 hs ha hb h1 h2] at hok
      cases hnet : net (url_history s (timestamp d1) (timestamp d2)) with
      | fail =>
        rw [hnet] at hok
        exact absurd hok (by simp)
      | page ts =>
        cases ts with
        | nil =>
          rw [hnet] at hok
          exact absurd hok (by simp)
        | cons t rest =>
          rw [hnet] at hok
          cases hp : processTable toNum toDate t with
          | error e =>
            simp [hp] at hok
          | ok p =>
            simp only [hp] at hok
            simp only [Except.ok.injEq] at hok
            subst hok
            rfl

/-- Witness for C1: the demonstration run is titled with its symbol. -/
theorem update_graph_title_is_symbol_witness :
    demoFig.layout.title = some ("Stock Prices: " ++ "AAPL") :=
  update_graph_title_is_symbol demoNet demoToNum demoToDate "AAPL" "2020-01-01"
    "2021-01-01" (by decide) (by decide) (by decide) demoFig rfl

/-- C5: a run with valid inputs issues exactly one GET, for the
price-history URL built from the symbol and the two timestamps, and two
runs with the same inputs fetch twice — nothing is cached or
deduplicated. -/
theorem update_graph_one_fresh_get (net : Net) (toNum : String → Option Int)
    (toDate : String → Int) (s a b : String) (d1 d2 : YMD)
    (hs : s ≠ "") (ha : a ≠ "") (hb : b ≠ "")
    (h1 : strptimeYMD a = some d1) (h2 : strptimeYMD b = some d2) :
    (update_graph net toNum toDate (some s) (some a) (some b)).2
        = [url_history s (timestamp d1) (timestamp d2)] ∧
    (update_graph net toNum toDate (some s) (some a) (some b)).2 ++
        (update_graph net toNum toDate (some s) (some a) (some b)).2
        = [url_history s (timestamp d1) (timestamp d2),
           url_history s (timestamp d1) (timestamp d2)] := by
  have key := update_graph_log net toNum toDate s a b d1 d2 hs ha hb h1 h2
  refine ⟨key, ?_⟩
  rw [key]
  rfl

/-- Witness for C5: the demonstration run issues the one expected GET. -/
theorem update_graph_one_fresh_get_witness :
    (update_graph demoNet demoToNum demoToDate (some "AAPL") (some "2020-01-01")
        (some "2021-01-01")).2
      = [url_history "AAPL" (timestamp ⟨2020, 1, 1⟩) (timestamp ⟨2021, 1, 1⟩)] :=
  (update_graph_one_fresh_get demoNet demoToNum demoToDate "AAPL" "2020-01-01"
    "2021-01-01" ⟨2020, 1, 1⟩ ⟨2021, 1, 1⟩ (by decide) (by decide) (by decide)
    (by decide) (by decide)).1

/-- C6: update_graph catches no exceptions — a failed GET, a page with no
parseable table, and a first table that is not seven columns wide each
abort the run with the corresponding unhandled error, producing no
figure. -/
theorem update_graph_unhandled_errors (net : Net) (toNum : String → Option Int)
    (toDate : String → Int) (s a b : String) (d1 d2 : YMD)
    (hs : s ≠ "") (ha : a ≠ "") (hb : b ≠ "")
    (h1 : strptimeYMD a = some d1) (h2 : strptimeYMD b = some d2) :
    (net (url_history s (timestamp d1) (timestamp d2)) = .fail →
      update_graph net toNum toDate (some s) (some a) (some b)
        = (.error .httpError, [url_history s (timestamp d1) (timestamp d2)])) ∧
    (net (url_history s (timestamp d1) (timestamp d2)) = .page [] →
      update_graph net toNum toDate (some s) (some a) (some b)
        = (.error .noTables, [url_history s (timestamp d1) (timestamp d2)])) ∧
    (∀ t rest, net (url_history s (timestamp d1) (timestamp d2)) = .page (t :: rest) →
      t.header.length ≠ 7 →
      update_graph net toNum toDate (some s) (some a) (some b)
        = (.error .columnMismatch, [url_history s (timestamp d1) (timestamp d2)])) := by
  refine ⟨?_, ?_, ?_⟩
  · intro hnet
    rw [update_graph_data_branch net toNum toDate s a b d1 d2 hs ha hb h1 h2, hnet]
  · intro hnet
    rw [update_graph_data_branch net toNum toDate s a b d1 d2 hs ha hb h1 h2, hnet]
  · intro t rest hnet hw
    have hp : processTable toNum toDate t = .error .columnMismatch := by
      unfold processTable
      rw [if_neg hw]
    rw [update_graph_data_branch net toNum toDate s a b d1 d2 hs ha hb h1 h2, hnet]
    simp [hp]

/-- Witness for C6: on the always-failing network the demonstration run
aborts with the HTTP error. -/
theorem update_graph_unhandled_errors_witness :
    update_graph failNet demoToNum demoToDate (some "AAPL") (some "2020-01-01")
        (some "2021-01-01")
      = (.error .httpError,
         [url_history "AAPL" (timestamp ⟨2020, 1, 1⟩) (timestamp ⟨2021, 1, 1⟩)]) :=
  (update_graph_unhandled_errors failNet demoToNum demoToDate "AAPL" "2020-01-01"
    "2021-01-01" ⟨2020, 1, 1⟩ ⟨2021, 1, 1⟩ (by decide) (by decide) (by decide)
    (by decide) (by decide)).1 rfl

/-- C8: when any input is None or empty, update_graph returns the
placeholder figure — one empty line trace, title "Loading Data..." — and
issues no HTTP request and parses no table. -/
theorem update_graph_falsy_placeholder (net : Net) (toNum : String → Option Int)
    (toDate : String → Int) (symbol start_date end_date : Option String)
    (h : (pyFalsy symbol || pyFalsy start_date || pyFalsy end_date) = true) :
    update_graph net toNum toDate symbol start_date end_date
        = (.ok empty_figure, []) ∧
    empty_figure.data = [{ x := [], y := [], mode := "lines" }] ∧
    empty_figure.layout.title = some "Loading Data..." := by
  refine ⟨?_, rfl, rfl⟩
  unfold update_graph
  rw [if_pos h]

/-- Witness for C8 with a missing symbol. -/
theorem update_graph_falsy_placeholder_witness :
    update_graph demoNet demoToNum demoToDate none (some "2020-01-01")
        (some "2021-01-01") = (.ok empty_figure, []) :=
  (update_graph_falsy_placeholder demoNet demoToNum demoToDate none
    (some "2020-01-01") (some "2021-01-01") (by decide)).1

/-- C9: every figure update_graph returns, from the placeholder branch or
the data branch, ends with the common layout applied last: centered title,
width 800, height 600 and the plotly_white template, overriding the
intermediate 600 by 400 size of the data branch. -/
theorem update_graph_common_layout_last (net : Net) (toNum : String → Option Int)
    (toDate : String → Int) (symbol start_date end_date : Option String)
    (fig : Figure)
    (hok : (update_graph net toNum toDate symbol start_date end_date).1 = .ok fig) :
    fig.layout.title_x = some (1 / 2) ∧ fig.layout.width = some 800 ∧
    fig.layout.height = some 600 ∧ fig.layout.template = some "plotly_white" := by
  by_cases hf : (pyFalsy symbol || pyFalsy start_date || pyFalsy end_date) = true
  · have hgo : update_graph net toNum toDate symbol start_date end_date
        = (.ok empty_figure, []) := by
      unfold update_graph
      rw [if_pos hf]
    rw [hgo] at hok
    have hfe : empty_figure = fig := by simpa using hok
    subst hfe
    exact ⟨rfl, rfl, rfl, rfl⟩
  · simp only [Bool.or_eq_true, not_or, Bool.not_eq_true] at hf
    obtain ⟨⟨hfs, hfa⟩, hfb⟩ := hf
    obtain ⟨s, hsy, hs⟩ := pyFalsy_false_elim symbol hfs
    obtain ⟨a, hay, ha⟩ := pyFalsy_false_elim start_date hfa
    obtain ⟨b, hby, hb⟩ := pyFalsy_false_elim end_date hfb
    subst hsy
    subst hay
    subst hby
    cases h1 : strptimeYMD a with
    | none =>
      rw [update_graph_bad_start net toNum toDate s a b hs ha hb h1] at hok
      exact absurd hok (by simp)
    | some d1 =>
      cases h2 : strptimeYMD b with
      | none =>
        rw [update_graph_bad_end net toNum toDate s a b d1 hs ha hb h1 h2] at hok
        exact absurd hok (by simp)
      | some d2 =>
        rw [update_graph_data_branch net toNum toDate s a b d1 d2 hs ha hb h1 h2] at hok
        cases hnet : net (url_history s (timestamp d1) (timestamp d2)) with
        | fail =>
          rw [hnet] at hok
          exact absurd hok (by simp)
        | page ts =>
          cases ts with
          | nil =>
            rw [hnet] at hok
            exact absurd hok (by simp)
          | cons t rest =>
            rw [hnet] at hok
            cases hp : processTable toNum toDate t with
            | error e =>
              simp [hp] at hok
            | ok p =>
              simp only [hp] at hok
              simp only [Except.ok.injEq] at hok
              subst hok
              exact common_layout_fields _

/-- Witness for C9 at the demonstration run. -/
theorem update_graph_common_layout_last_witness :
    demoFig.layout.title_x = some (1 / 2) ∧ demoFig.layout.width = some 800 ∧
    demoFig.layout.height = some 600 ∧
    demoFig.layout.template = some "plotly_white" :=
  update_graph_common_layout_last demoNet demoToNum demoToDate (some "AAPL")
    (some "2020-01-01") (some "2021-01-01") demoFig rfl

/-- C2: the price-history table built inside update_graph has exactly the
seven columns Date, Open, High, Low, Close, Adj Close, Volume; every
column other than Date is coerced cell-wise by the numeric conversion,
and a cell the conversion rejects is silently a missing value. -/
theorem processTable_seven_columns (toNum : String → Option Int)
    (toDate : String → Int) (t : RawDF) (p : ProcDF)
    (hp : processTable toNum toDate t = .ok p) :
    p.columns = sevenColumns ∧ p.columns.length = 7 ∧ p.numCols.length = 6 ∧
    (∀ j, j < 6 → p.numCols.getD j []
        = t.rows.map (fun r => toNum (r.getD (j + 1) ""))) ∧
    (∀ j k, j < 6 → k < t.rows.length →
      toNum ((t.rows.getD k []).getD (j + 1) "") = none →
      (p.numCols.getD j []).getD k (some 0) = none) := by
  by_cases hw : t.header.length = 7
  · unfold processTable at hp
    rw [if_pos hw] at hp
    simp only [Except.ok.injEq] at hp
    subst hp
    have h4 : ∀ j, j < 6 →
        (((List.range 6).map (fun j =>
          t.rows.map (fun r => toNum (r.getD (j + 1) "")))).getD j [])
          = t.rows.map (fun r => toNum (r.getD (j + 1) "")) := by
      intro j hj
      interval_cases j <;> rfl
    refine ⟨rfl, rfl, rfl, h4, ?_⟩
    intro j k hj hk hnone
    have hrow : t.rows.getD k [] = t.rows[k] := by
      rw [List.getD_eq_getElem?_getD, List.getElem?_eq_getElem hk]
      rfl
    rw [hrow] at hnone
    show (((List.range 6).map (fun j =>
        t.rows.map (fun r => toNum (r.getD (j + 1) "")))).getD j []).getD k (some 0)
        = none
    rw [h4 j hj, List.getD_eq_getElem?_getD, List.getElem?_map,
      List.getElem?_eq_getElem hk]
    simpa using hnone
  · unfold processTable at hp
    rw [if_neg hw] at hp
    exact absurd hp (by simp)

/-- Witness for C2 on the demonstration table. -/
theorem processTable_seven_columns_witness :
    demoProc.columns = sevenColumns :=
  (processTable_seven_columns demoToNum demoToDate demoTable demoProc
    (by decide)).1

/-- C4: the ticker list is fetched exactly once, by the startup
computation, and no run of update_graph ever requests the ticker-list
page again. -/
theorem tickers_fetched_once_only (net net2 : Net) (toNum : String → Option Int)
    (toDate : String → Int) (symbol start_date end_date : Option String) :
    (fetch_stocks net).2 = [url_stocks] ∧
    url_stocks ∉ (update_graph net2 toNum toDate symbol start_date end_date).2 :=
  ⟨fetch_stocks_log net,
   update_graph_no_ticker_get net2 toNum toDate symbol start_date end_date⟩

/-- C7: after a successful fetch of a seven-column table, the returned
figure holds exactly one line trace whose x values are the converted Date
column and whose y values are the coerced Adj Close column. -/
theorem update_graph_single_adj_close_trace (net : Net)
    (toNum : String → Option Int) (toDate : String → Int) (s a b : String)
    (d1 d2 : YMD) (t : RawDF) (rest : List RawDF)
    (hs : s ≠ "") (ha : a ≠ "") (hb : b ≠ "")
    (h1 : strptimeYMD a = some d1) (h2 : strptimeYMD b = some d2)
    (hnet : net (url_history s (timestamp d1) (timestamp d2)) = .page (t :: rest))
    (hw : t.header.length = 7) :
    ∃ fig, (update_graph net toNum toDate (some s) (some a) (some b)).1 = .ok fig ∧
      fig.data = [{ x := t.rows.map (fun r => toDate (r.getD 0 ""))
                    y := t.rows.map (fun r => toNum (r.getD 5 ""))
                    mode := "lines" }] := by
  have hp : processTable toNum toDate t = .ok
      { columns := sevenColumns
        dateCol := t.rows.map (fun r => toDate (r.getD 0 ""))
        numCols := (List.range 6).map (fun j =>
          t.rows.map (fun r => toNum (r.getD (j + 1) ""))) } := by
    unfold processTable
    rw [if_pos hw]
  refine ⟨common_layout
      { data := [{ x := t.rows.map (fun r => toDate (r.getD 0 ""))
                   y := t.rows.map (fun r => toNum (r.getD 5 ""))
                   mode := "lines" }]
        layout := { title := some ("Stock Prices: " ++ s)
                    title_x := some (1 / 2)
                    width := some 600
                    height := some 400
                    template := none } }, ?_, rfl⟩
  rw [update_graph_data_branch net toNum toDate s a b d1 d2 hs ha hb h1 h2, hnet]
  simp only [hp]
  rfl

/-- Witness for C7 at the demonstration run. -/
theorem update_graph_single_adj_close_trace_witness :
    ∃ fig, (update_graph demoNet demoToNum demoToDate (some "AAPL")
        (some "2020-01-01") (some "2021-01-01")).1 = .ok fig ∧
      fig.data = [{ x := demoTable.rows.map (fun r => demoToDate (r.getD 0 ""))
                    y := demoTable.rows.map (fun r => demoToNum (r.getD 5 ""))
                    mode := "lines" }] :=
  update_graph_single_adj_close_trace demoNet demoToNum demoToDate "AAPL"
    "2020-01-01" "2021-01-01" ⟨2020, 1, 1⟩ ⟨2021, 1, 1⟩ demoTable []
    (by decide) (by decide) (by decide) (by decide) (by decide) rfl (by decide)

/-- C10: both dates must parse in the %Y-%m-%d format — any other string
raises an unhandled ValueError before any HTTP request — and when both
parse, the two integer Unix timestamps of the dates appear verbatim in
the single requested price-history URL. -/
theorem update_graph_date_format_contract (net : Net)
    (toNum : String → Option Int) (toDate : String → Int) (s a b : String)
    (hs : s ≠ "") (ha : a ≠ "") (hb : b ≠ "") :
    (strptimeYMD a = none →
      update_graph net toNum toDate (some s) (some a) (some b)
        = (.error .valueError, [])) ∧
    (∀ d1, strptimeYMD a = some d1 → strptimeYMD b = none →
      update_graph net toNum toDate (some s) (some a) (some b)
        = (.error .valueError, [])) ∧
    (∀ d1 d2, strptimeYMD a = some d1 → strptimeYMD b = some d2 →
      (update_graph net toNum toDate (some s) (some a) (some b)).2
          = [url_history s (timestamp d1) (timestamp d2)] ∧
      ∃ pre mid post, url_history s (timestamp d1) (timestamp d2)
          = pre ++ toString (timestamp d1) ++ mid ++ toString (timestamp d2) ++ post) := by
  refine ⟨?_, ?_, ?_⟩
  · intro h1
    exact update_graph_bad_start net toNum toDate s a b hs ha hb h1
  · intro d1 h1 h2
    exact update_graph_bad_end net toNum toDate s a b d1 hs ha hb h1 h2
  · intro d1 d2 h1 h2
    refine ⟨update_graph_log net toNum toDate s a b d1 d2 hs ha hb h1 h2, ?_⟩
    refine ⟨"https://finance.yahoo.com/quote/" ++ s ++ "/history/?period1=",
      "&period2=", "", ?_⟩
    rw [String.append_empty]
    rfl

/-- Witness for C10 at the demonstration run. -/
theorem update_graph_date_format_contract_witness :
    (update_graph demoNet demoToNum demoToDate (some "AAPL") (some "2020-01-01")
        (some "2021-01-01")).2
        = [url_history "AAPL" (timestamp ⟨2020, 1, 1⟩) (timestamp ⟨2021, 1, 1⟩)] ∧
    ∃ pre mid post,
      url_history "AAPL" (timestamp ⟨2020, 1, 1⟩) (timestamp ⟨2021, 1, 1⟩)
        = pre ++ toString (timestamp ⟨2020, 1, 1⟩) ++ mid
          ++ toString (timestamp ⟨2021, 1, 1⟩) ++ post :=
  (update_graph_date_format_contract demoNet demoToNum demoToDate "AAPL"
    "2020-01-01" "2021-01-01" (by decide) (by decide) (by decide)).2.2
    ⟨2020, 1, 1⟩ ⟨2021, 1, 1⟩ (by decide) (by decide)

/-- C3 counterexample: a concrete interaction with valid inputs issues
exactly one GET, for the price-history page, and no GET for the
ticker-list page — so the ticker-symbol list is not recomputed from its
source on this interaction, refuting the claim that both tabular
structures are recomputed from scratch on every user interaction. -/
theorem ticker_list_not_recomputed_cex :
    (update_graph demoNet demoToNum demoToDate (some "AAPL") (some "2020-01-01")
        (some "2021-01-01")).2 = [url_history "AAPL" 1577836800 1609459200] ∧
    url_stocks ∉ (update_graph demoNet demoToNum demoToDate (some "AAPL")
        (some "2020-01-01") (some "2021-01-01")).2 := by
  decide

/-- C3 amended: the price-history table is recomputed from scratch on
every interaction — each valid-input run fetches its page anew and the
outcome depends only on what that single fetch returns — while the
ticker-symbol list is computed once at process start and never recomputed
by update_graph; neither structure is persisted anywhere. -/
theorem price_history_fresh_tickers_startup_only (net net' : Net)
    (toNum : String → Option Int) (toDate : String → Int)
    (s a b : String) (d1 d2 : YMD)
    (hs : s ≠ "") (ha : a ≠ "") (hb : b ≠ "")
    (h1 : strptimeYMD a = some d1) (h2 : strptimeYMD b = some d2) :
    (update_graph net toNum toDate (some s) (some a) (some b)).2
        = [url_history s (timestamp d1) (timestamp d2)] ∧
    (net (url_history s (timestamp d1) (timestamp d2))
        = net' (url_history s (timestamp d1) (timestamp d2)) →
      update_graph net toNum toDate (some s) (some a) (some b)
        = update_graph net' toNum toDate (some s) (some a) (some b)) ∧
    url_stocks ∉ (update_graph net toNum toDate (some s) (some a) (some b)).2 ∧
    (fetch_stocks net).2 = [url_stocks] := by
  refine ⟨update_graph_log net toNum toDate s a b d1 d2 hs ha hb h1 h2, ?_,
    update_graph_no_ticker_get net toNum toDate (some s) (some a) (some b),
    fetch_stocks_log net⟩
  intro hagree
  rw [update_graph_data_branch net toNum toDate s a b d1 d2 hs ha hb h1 h2,
    update_graph_data_branch net' toNum toDate s a b d1 d2 hs ha hb h1 h2, hagree]

/-- Witness for the amended C3 at the demonstration run. -/
theorem price_history_fresh_tickers_startup_only_witness :
    url_stocks ∉ (update_graph demoNet demoToNum demoToDate (some "AAPL")
        (some "2020-01-01") (some "2021-01-01")).2 ∧
    (fetch_stocks demoNet).2 = [url_stocks] :=
  (price_history_fresh_tickers_startup_only demoNet demoNet demoToNum demoToDate
    "AAPL" "2020-01-01" "2021-01-01" ⟨2020, 1, 1⟩ ⟨2021, 1, 1⟩
    (by decide) (by decide) (by decide) (by decide) (by decide)).2.2
